import Mathlib

/-!
Shallow embedding of the EtoE_ML_Project data-preparation pipeline
(src/components/data_injection.py, src/components/data_transformation.py,
src/utils.py, src/exception.py) and proofs about its claims.

Conventions of the embedding:
* a pandas DataFrame read from stud.csv is a `List Row`, one typed record
  per data row; the target column math_score is a plain rational, the
  predictor columns are optional (a missing cell is `none`, modelling NaN);
* the local file system is an association list from path strings to typed
  file contents plus the set of directories that exist;
* fallible steps return `Except`; an error value carries both the raised
  exception and the process state at the moment the exception escaped, so
  that theorems can speak about which files a failed run left behind;
* exact rational arithmetic stands in for floating point; a value produced
  by StandardScaler, which divides by the square root of a variance, is
  kept in exact symbolic form as the pair of its numerator and the
  variance under the root (`SVal`).
-/

/-! ## Rows and tables -/

/-- One record of the stud.csv table: five categorical predictors, two
numeric predictors, one numeric target (math_score). Predictor cells are
optional to model missing values (NaN). -/
structure Row where
  gender : Option String
  race_ethnicity : Option String
  parental_level_of_education : Option String
  lunch : Option String
  test_preparation_course : Option String
  math_score : ℚ
  reading_score : Option ℚ
  writing_score : Option ℚ
deriving DecidableEq, Repr

/-! ## Column declarations, from data_transformation.py -/

/-- Columns treated as numerical, exactly as listed in
get_data_transformer_object. -/
def numerical_columns : List String := ["writing_score", "reading_score"]

/-- Columns treated as categorical, exactly as listed in
get_data_transformer_object. -/
def categorical_columns : List String :=
  ["gender", "race_ethnicity", "parental_level_of_education", "lunch",
   "test_preparation_course"]

/-- Target column for prediction, from initiate_data_transformation. -/
def target_column_name : String := "math_score"

/-- Header of stud.csv: the eight named columns, in file order. -/
def schema_columns : List String :=
  ["gender", "race_ethnicity", "parental_level_of_education", "lunch",
   "test_preparation_course", "math_score", "reading_score", "writing_score"]

/-- The predictor columns: every schema column except the target. -/
def predictor_columns : List String :=
  schema_columns.filter (fun c => c ≠ target_column_name)

/-! ## Seeded shuffle: models the seeded permutation used by
train_test_split(random_state=42). The library draws a pseudo-random
permutation that is a deterministic function of the seed and the row
count; the embedding uses a linear-congruential Fisher-Yates draw with
those same two properties (deterministic in the seed, always a
permutation), which is what every claim relies on. -/

/-- One step of a linear congruential generator (deterministic seed
evolution for the modelled shuffle). -/
def lcg (s : Nat) : Nat := (s * 1103515245 + 12345) % 2 ^ 31

/-- Remove and return the element at index `j` (the drawn element of one
Fisher-Yates step). -/
def pick : Nat → List α → Option (α × List α)
  | _, [] => none
  | 0, x :: xs => some (x, xs)
  | j + 1, x :: xs => (pick j xs).map (fun p => (p.1, x :: p.2))

/-- Fuelled Fisher-Yates shuffle driven by `lcg`. -/
def shuffleGo : Nat → Nat → List α → List α
  | 0, _, l => l
  | fuel + 1, s, l =>
    match l with
    | [] => []
    | x :: xs =>
      match pick (s % (x :: xs).length) (x :: xs) with
      | some (y, ys) => y :: shuffleGo fuel (lcg s) ys
      | none => x :: xs

/-- Deterministic seeded permutation of a list. -/
def shuffle (s : Nat) (l : List α) : List α := shuffleGo l.length s l

theorem pick_perm : ∀ (j : Nat) (l : List α) (y : α) (ys : List α),
    pick j l = some (y, ys) → List.Perm (y :: ys) l := by
  intro j l
  induction l generalizing j with
  | nil => intro y ys h; simp [pick] at h
  | cons x xs ih =>
    intro y ys h
    cases j with
    | zero =>
      simp [pick] at h
      obtain ⟨h1, h2⟩ := h
      subst h1; subst h2
      exact List.Perm.refl _
    | succ j =>
      cases hp : pick j xs with
      | none => simp [pick, hp] at h
      | some p =>
        simp [pick, hp] at h
        obtain ⟨rfl, rfl⟩ := h
        exact (List.Perm.swap x p.1 p.2).trans ((ih j p.1 p.2 hp).cons x)

theorem shuffleGo_perm (fuel : Nat) : ∀ (s : Nat) (l : List α),
    List.Perm (shuffleGo fuel s l) l := by
  induction fuel with
  | zero => intro s l; exact List.Perm.refl _
  | succ fuel ih =>
    intro s l
    cases l with
    | nil => exact List.Perm.refl _
    | cons x xs =>
      simp only [shuffleGo]
      cases h : pick (s % (x :: xs).length) (x :: xs) with
      | none => exact List.Perm.refl _
      | some p =>
        obtain ⟨y, ys⟩ := p
        exact ((ih (lcg s) ys).cons y).trans (pick_perm _ _ _ _ h)

theorem shuffle_perm (s : Nat) (l : List α) : List.Perm (shuffle s l) l :=
  shuffleGo_perm l.length s l

/-! ## The train-test split, from data_injection.py:
train_test_split(df, test_size=0.2, random_state=42). The library takes
the test rows as the first ceil(0.2*n) entries of the seed-42 permutation
and the train rows as the rest, returning (train, test). -/

/-- Number of test rows for a table of `n` rows under test_size=0.2:
the ceiling of n/5, as the library computes for a float test size. -/
def testCount (n : Nat) : Nat := (n + 4) / 5

/-- train_test_split(df, test_size=0.2, random_state=42): shuffle with
seed 42, the first ceil(n/5) shuffled rows are the test partition, the
remaining rows the train partition; returns (train_set, test_set). -/
def train_test_split (df : List Row) : List Row × List Row :=
  let shuffled := shuffle 42 df
  (shuffled.drop (testCount df.length), shuffled.take (testCount df.length))

/-! ## Fitted statistics: what SimpleImputer, StandardScaler and
OneHotEncoder learn at fit time, in exact rational arithmetic. -/

/-- Insert into a list sorted by `le` (stable insertion sort step). -/
def insortBy (le : α → α → Bool) (x : α) : List α → List α
  | [] => [x]
  | y :: ys => if le x y then x :: y :: ys else y :: insortBy le x ys

/-- Sort a list by `le` via insertion sort. -/
def sortBy (le : α → α → Bool) (l : List α) : List α :=
  l.foldr (insortBy le) []

/-! Exact rational arithmetic, written out on numerator and denominator
(`mkRat` renormalizes), so that every learned statistic is a computable
function of the input table. -/

/-- Addition of rationals. -/
def qAdd (a b : ℚ) : ℚ :=
  mkRat (a.num * (b.den : Int) + b.num * (a.den : Int)) (a.den * b.den)

/-- Subtraction of rationals. -/
def qSub (a b : ℚ) : ℚ :=
  mkRat (a.num * (b.den : Int) - b.num * (a.den : Int)) (a.den * b.den)

/-- Multiplication of rationals. -/
def qMul (a b : ℚ) : ℚ := mkRat (a.num * b.num) (a.den * b.den)

/-- Square of a rational. -/
def qSq (a : ℚ) : ℚ := qMul a a

/-- Division of a rational by a natural number (zero divisor gives 0). -/
def qDivNat (a : ℚ) (n : Nat) : ℚ := mkRat a.num (a.den * n)

/-- Sum of a list of rationals. -/
def qSum (l : List ℚ) : ℚ := l.foldr qAdd 0

/-- Boolean order on rationals (cross multiplication; denominators are
positive). -/
def ratLe (a b : ℚ) : Bool := decide (a.num * (b.den : Int) ≤ b.num * (a.den : Int))

/-- Boolean order on strings (lexicographic, via compare). -/
def strLe (a b : String) : Bool := !(compare a b == Ordering.gt)

/-- Median of a list of rationals: middle element of the sorted list for
odd length, average of the two middle elements for even length (the
median SimpleImputer(strategy=median) learns). -/
def median (l : List ℚ) : ℚ :=
  let s := sortBy ratLe l
  let n := s.length
  if n = 0 then 0
  else if n % 2 = 1 then s.getD (n / 2) 0
  else qDivNat (qAdd (s.getD (n / 2 - 1) 0) (s.getD (n / 2) 0)) 2

/-- Arithmetic mean of a list of rationals. -/
def mean (l : List ℚ) : ℚ := qDivNat (qSum l) l.length

/-- Population variance (the biased variance StandardScaler learns). -/
def variance (l : List ℚ) : ℚ :=
  qDivNat (qSum (l.map (fun x => qSq (qSub x (mean l))))) l.length

/-- Most frequent value of a list of strings, ties broken towards the
lexicographically smallest value (the statistic
SimpleImputer(strategy=most_frequent) learns). -/
def mostFrequent (l : List String) : String :=
  l.dedup.foldl
    (fun best c =>
      if l.count best < l.count c then c
      else if l.count best = l.count c ∧ compare c best = Ordering.lt then c
      else best)
    (l.dedup.headD "")

/-- Learned parameters of the numeric pipeline for one column:
the imputation median, then the scaling mean and variance computed on
the imputed column. -/
structure NumStats where
  median : ℚ
  mean : ℚ
  var : ℚ
deriving DecidableEq, Repr

/-- Learned parameters of the categorical pipeline for one column: the
imputation mode, the sorted category vocabulary of OneHotEncoder, and
the per-one-hot-column variances of StandardScaler(with_mean=False),
aligned with the vocabulary. -/
structure CatStats where
  mode : String
  categories : List String
  vars : List ℚ
deriving DecidableEq, Repr

/-- The fitted preprocessor: per-column learned statistics for the two
numeric and the five categorical predictor columns. -/
structure FittedPre where
  writing : NumStats
  reading : NumStats
  gender : CatStats
  race_ethnicity : CatStats
  parental_level_of_education : CatStats
  lunch : CatStats
  test_preparation_course : CatStats
deriving DecidableEq, Repr

/-- Fit the numeric pipeline on one column: median over the present
values, then mean and variance of the median-imputed column. -/
def numFit (vals : List (Option ℚ)) : NumStats :=
  let med := median (vals.filterMap id)
  let imputed := vals.map (fun v => v.getD med)
  ⟨med, mean imputed, variance imputed⟩

/-- Fit the categorical pipeline on one column: mode over the present
values, sorted unique vocabulary of the mode-imputed column, and the
variance of each one-hot indicator column. -/
def catFit (vals : List (Option String)) : CatStats :=
  let mode := mostFrequent (vals.filterMap id)
  let imputed := vals.map (fun v => v.getD mode)
  let cats := sortBy strLe imputed.dedup
  ⟨mode, cats,
   cats.map (fun c => variance (imputed.map (fun v => if v = c then 1 else 0)))⟩

/-- Fit the combined ColumnTransformer on the predictor columns of a
table. The target column math_score is never consulted: this is the
drop(columns=[math_score]) of initiate_data_transformation. -/
def preFit (rows : List Row) : FittedPre :=
  ⟨numFit (rows.map Row.writing_score),
   numFit (rows.map Row.reading_score),
   catFit (rows.map Row.gender),
   catFit (rows.map Row.race_ethnicity),
   catFit (rows.map Row.parental_level_of_education),
   catFit (rows.map Row.lunch),
   catFit (rows.map Row.test_preparation_course)⟩

/-! ## Transform: applying a fitted preprocessor to one row. -/

/-- A scaled value in exact form: `num` divided by the square root of
`den` (StandardScaler divides by the square root of a learned variance,
which is irrational in general). `den = 1` embeds a plain rational. -/
structure SVal where
  num : ℚ
  den : ℚ
deriving DecidableEq, Repr

/-- Embed a plain rational (a raw, unscaled value). -/
def SVal.ofRat (q : ℚ) : SVal := ⟨q, 1⟩

/-- StandardScaler replaces a zero variance by a unit scale. -/
def scaleDen (v : ℚ) : ℚ := if v = 0 then 1 else v

/-- Error causes raised by the modelled library calls. -/
inductive Cause where
  | fileNotFound (path : String)
  | unknownCategory (col : String) (value : String)
deriving DecidableEq, Repr

/-- Numeric pipeline transform of one cell: impute the learned median,
subtract the learned mean, divide by the square root of the learned
variance. -/
def numT (st : NumStats) (x : Option ℚ) : SVal :=
  ⟨qSub (x.getD st.median) st.mean, scaleDen st.var⟩

/-- Categorical pipeline transform of one cell: impute the learned mode,
one-hot encode against the learned vocabulary (the encoder keeps its
default unknown-category policy, so an unseen value is an error), scale
each indicator by the square root of its learned variance. -/
def catT (col : String) (st : CatStats) (x : Option String) :
    Except Cause (List SVal) :=
  if x.getD st.mode ∈ st.categories then
    .ok ((st.categories.zip st.vars).map
      (fun p => ⟨if p.1 = x.getD st.mode then 1 else 0, scaleDen p.2⟩))
  else .error (.unknownCategory col (x.getD st.mode))

/-- Output of the numeric branch on one row: writing_score then
reading_score, in the declared column order. -/
def numBranch (p : FittedPre) (r : Row) : List SVal :=
  [numT p.writing r.writing_score, numT p.reading r.reading_score]

/-- Output of the categorical branch on one row: the five one-hot
expansions concatenated in the declared column order. -/
def catBranch (p : FittedPre) (r : Row) : Except Cause (List SVal) := do
  let g ← catT "gender" p.gender r.gender
  let re ← catT "race_ethnicity" p.race_ethnicity r.race_ethnicity
  let pe ← catT "parental_level_of_education" p.parental_level_of_education
    r.parental_level_of_education
  let lu ← catT "lunch" p.lunch r.lunch
  let tc ← catT "test_preparation_course" p.test_preparation_course
    r.test_preparation_course
  .ok (g ++ re ++ pe ++ lu ++ tc)

/-- Combined ColumnTransformer transform of one row: numeric branch
columns first, then the categorical branch columns. -/
def preTransform (p : FittedPre) (r : Row) : Except Cause (List SVal) := do
  let g ← catT "gender" p.gender r.gender
  let re ← catT "race_ethnicity" p.race_ethnicity r.race_ethnicity
  let pe ← catT "parental_level_of_education" p.parental_level_of_education
    r.parental_level_of_education
  let lu ← catT "lunch" p.lunch r.lunch
  let tc ← catT "test_preparation_course" p.test_preparation_course
    r.test_preparation_course
  .ok (numBranch p r ++ (g ++ re ++ pe ++ lu ++ tc))

/-- Transform every row of a table (the matrix produced by fit_transform
or transform); the first unknown category aborts the whole call. -/
def transformAll (p : FittedPre) : List Row → Except Cause (List (List SVal))
  | [] => .ok []
  | r :: rs =>
    match preTransform p r, transformAll p rs with
    | .ok v, .ok vs => .ok (v :: vs)
    | .error c, _ => .error c
    | _, .error c => .error c

/-! ## File system and process state. Files hold typed contents: a parsed
CSV table or the serialized (dill) bytes of a fitted preprocessor. -/

/-- Contents of one file. -/
inductive FileData where
  | table (df : List Row)
  | blob (p : FittedPre)
deriving DecidableEq, Repr

/-- Process-visible state: the files on disk (later writes shadow
earlier ones in the association list) and the directories that exist. -/
structure PState where
  files : List (String × FileData)
  dirs : List String
deriving DecidableEq, Repr

/-- State with no files and no directories. -/
def emptyState : PState := ⟨[], []⟩

/-- Current contents of a path. -/
def lookupFile (st : PState) (p : String) : Option FileData :=
  st.files.lookup p

/-- Record new contents at a path (overwriting any previous contents). -/
def setFile (st : PState) (p : String) (d : FileData) : PState :=
  { st with files := (p, d) :: st.files }

/-- os.path.dirname for relative slash-separated paths: everything
before the last slash, the empty string for a bare file name. -/
def dirname (p : String) : String :=
  String.mk (((p.toList.reverse.dropWhile (fun c => c ≠ '/')).drop 1).reverse)

/-- os.makedirs(path, exist_ok=True): raises FileNotFoundError on the
empty path, otherwise records the directory. -/
def makedirs (st : PState) (p : String) : Except Cause PState :=
  if p = "" then .error (.fileNotFound "")
  else .ok { st with dirs := p :: st.dirs }

/-- Opening a path for writing: succeeds when the parent directory
exists (a bare file name writes into the working directory). -/
def writeFile (st : PState) (p : String) (d : FileData) : Except Cause PState :=
  if dirname p = "" then .ok (setFile st p d)
  else if st.dirs.contains (dirname p) then .ok (setFile st p d)
  else .error (.fileNotFound (dirname p))

/-- pandas.read_csv: the parsed table at the path, or an error. -/
def read_csv (st : PState) (p : String) : Except Cause (List Row) :=
  match lookupFile st p with
  | some (.table df) => .ok df
  | _ => .error (.fileNotFound p)

/-! ## Exception wrapping, from src/exception.py. Every except block of
the pipeline executes `raise CustomException(e, sys)`; the constructor
calls error_message_detail(error, error_detail) whose first statement
unpacks error_detail into three components. The callers pass the sys
module itself (not sys.exc_info()), and unpacking a module raises a
TypeError, which is what actually escapes to the caller. -/

/-- The second argument the callers hand to CustomException: either the
sys module itself (what every call site in this repository passes) or an
exc_info triple, of which only the traceback data matters here. -/
inductive PyObj where
  | sysModule
  | excInfo (fileName : String) (lineNo : Nat)
deriving DecidableEq, Repr

/-- An exception escaping to a Python caller. -/
inductive PyExc where
  | custom (msg : String)
  | typeError (msg : String)
deriving DecidableEq, Repr

/-- The message of the TypeError raised when a module is unpacked. -/
def unpackErrorMsg : String := "cannot unpack non-iterable module object"

/-- error_message_detail(error, error_detail): unpacks error_detail as a
triple (exc_type, exc_value, exc_tb); succeeds with the formatted
location message on an exc_info triple, raises a TypeError when handed
the sys module. -/
def error_message_detail (error : String) (error_detail : PyObj) :
    Except PyExc String :=
  match error_detail with
  | .excInfo f ln =>
    .ok ("Error occurred in script: [" ++ f ++ "], line number: [" ++
      toString ln ++ "], error message: [" ++ error ++ "]")
  | .sysModule => .error (.typeError unpackErrorMsg)

/-- Evaluate `raise CustomException(error_message, error_detail)`: if
the constructor body itself raises, that exception propagates instead of
the CustomException. -/
def raiseCustomException (error_message : String) (error_detail : PyObj) :
    PyExc :=
  match error_message_detail error_message error_detail with
  | .ok m => .custom m
  | .error exc => exc

/-- Message text of an underlying cause (str(e) of the caught error). -/
def causeMsg : Cause → String
  | .fileNotFound p => "No such file or directory: " ++ p
  | .unknownCategory c v =>
    "Found unknown category " ++ v ++ " in column " ++ c ++ " during transform"

/-- What an except block of this repository propagates for a caught
cause: CustomException(e, sys) evaluated with the sys module. -/
def wrapExc (c : Cause) : PyExc := raiseCustomException (causeMsg c) .sysModule

/-! ## Ingestion, from data_injection.py. -/

/-- Fixed source file location read by ingestion. -/
def input_data_path : String := "notebook/data/stud.csv"

/-- DataInjectionConfig.train_data_path. -/
def train_data_path : String := "artifacts/train.csv"

/-- DataInjectionConfig.test_data_path. -/
def test_data_path : String := "artifacts/test.csv"

/-- DataInjectionConfig.raw_data_path. -/
def raw_data_path : String := "artifacts/raw.csv"

/-- Body of the try block of initialize_data_injection: read stud.csv,
create the artifacts directory, write the raw copy, split, write the
train then the test partition, and return
(test_data_path, train_data_path) in that order. An error carries the
state at the moment it was raised. -/
def ingestGo (st : PState) :
    Except (Cause × PState) ((String × String) × PState) :=
  match read_csv st input_data_path with
  | .error c => .error (c, st)
  | .ok df =>
    match makedirs st (dirname train_data_path) with
    | .error c => .error (c, st)
    | .ok st1 =>
      match writeFile st1 raw_data_path (.table df) with
      | .error c => .error (c, st1)
      | .ok st2 =>
        let split := train_test_split df
        match writeFile st2 train_data_path (.table split.1) with
        | .error c => .error (c, st2)
        | .ok st3 =>
          match writeFile st3 test_data_path (.table split.2) with
          | .error c => .error (c, st3)
          | .ok st4 => .ok ((test_data_path, train_data_path), st4)

/-- DataInjection.initialize_data_injection: the try block, with any
caught error re-raised through CustomException(e, sys). -/
def initialize_data_injection (st : PState) :
    Except (PyExc × PState) ((String × String) × PState) :=
  match ingestGo st with
  | .ok r => .ok r
  | .error (c, st1) => .error (wrapExc c, st1)

/-! ## Object persistence, from src/utils.py. -/

/-- Body of the try block of save_object: extract the parent directory,
os.makedirs it with exist_ok=True, then open the path for writing and
dill.dump the object. -/
def saveGo (st : PState) (file_path : String) (obj : FittedPre) :
    Except (Cause × PState) PState :=
  match makedirs st (dirname file_path) with
  | .error c => .error (c, st)
  | .ok st1 =>
    match writeFile st1 file_path (.blob obj) with
    | .error c => .error (c, st1)
    | .ok st2 => .ok st2

/-- save_object(file_path, obj): the try block, with any caught error
re-raised through CustomException(e, sys). -/
def save_object (st : PState) (file_path : String) (obj : FittedPre) :
    Except (PyExc × PState) PState :=
  match saveGo st file_path obj with
  | .ok st1 => .ok st1
  | .error (c, st1) => .error (wrapExc c, st1)

/-- dill.load of a persisted preprocessor file: deserializes the bytes
back into an equivalent in-memory object. -/
def load_object (st : PState) (file_path : String) : Except Cause FittedPre :=
  match lookupFile st file_path with
  | some (.blob p) => .ok p
  | _ => .error (.fileNotFound file_path)

/-! ## Transformation orchestration, from data_transformation.py. -/

/-- DataTransformationConfig.preprocessor_obj_file_path. -/
def preprocessor_obj_file_path : String := "artifacts/proprocessor.pkl"

/-- Body of the try block of initiate_data_transformation: read both
tables, fit the preprocessor on the train-path predictors
(fit_transform), transform the test-path predictors, append the raw
target column onto each transformed matrix, persist the fitted object,
return the two arrays and the persisted-object path. -/
def transGo (st : PState) (train_path test_path : String) :
    Except (Cause × PState)
      ((List (List SVal)) × (List (List SVal)) × String × PState) :=
  match read_csv st train_path with
  | .error c => .error (c, st)
  | .ok train_df =>
    match read_csv st test_path with
    | .error c => .error (c, st)
    | .ok test_df =>
      let preprocessing_obj := preFit train_df
      match transformAll preprocessing_obj train_df with
      | .error c => .error (c, st)
      | .ok input_feature_train_arr =>
        match transformAll preprocessing_obj test_df with
        | .error c => .error (c, st)
        | .ok input_feature_test_arr =>
          let train_arr := List.zipWith
            (fun fr r => fr ++ [SVal.ofRat r.math_score])
            input_feature_train_arr train_df
          let test_arr := List.zipWith
            (fun fr r => fr ++ [SVal.ofRat r.math_score])
            input_feature_test_arr test_df
          match saveGo st preprocessor_obj_file_path preprocessing_obj with
          | .error e => .error e
          | .ok st1 =>
            .ok (train_arr, test_arr, preprocessor_obj_file_path, st1)

/-- DataTransformation.initiate_data_transformation: the try block, with
any caught error re-raised through CustomException(e, sys). -/
def initiate_data_transformation (st : PState) (train_path test_path : String) :
    Except (PyExc × PState)
      ((List (List SVal)) × (List (List SVal)) × String × PState) :=
  match transGo st train_path test_path with
  | .ok r => .ok r
  | .error (c, st1) => .error (wrapExc c, st1)

/-- The module-level entry point of data_injection.py: run ingestion,
unpack its returned pair as (train_data, test_data) in source order, and
feed the two names to initiate_data_transformation. The unpacked first
component is the test partition path, because initialize_data_injection
returns (test_data_path, train_data_path). -/
def pipeline_main (st : PState) :
    Except (PyExc × PState)
      ((List (List SVal)) × (List (List SVal)) × String × PState) :=
  match initialize_data_injection st with
  | .error e => .error e
  | .ok (paths, st1) =>
    let train_data := paths.1
    let test_data := paths.2
    initiate_data_transformation st1 train_data test_data

/-! ## Byte-level rendering of written files (to state byte-identity of
outputs). Tables are rendered as df.to_csv(index=False, header=True)
renders them: a header row of the eight column names, then one
comma-separated line per row, an empty cell for a missing value;
rationals print exactly. A persisted preprocessor renders through its
canonical representation. -/

/-- Exact decimal-free rendering of a rational. -/
def ratStr (q : ℚ) : String := toString q.num ++ "/" ++ toString q.den

/-- Rendering of one optional categorical cell. -/
def optCell : Option String → String
  | none => ""
  | some s => s

/-- Rendering of one optional numeric cell. -/
def optRatCell : Option ℚ → String
  | none => ""
  | some q => ratStr q

/-- One CSV line for a row, fields in schema order. -/
def rowCsv (r : Row) : String :=
  String.intercalate ","
    [optCell r.gender, optCell r.race_ethnicity,
     optCell r.parental_level_of_education, optCell r.lunch,
     optCell r.test_preparation_course, ratStr r.math_score,
     optRatCell r.reading_score, optRatCell r.writing_score]

/-- The bytes df.to_csv(index=False, header=True) writes for a table. -/
def csvOfTable (df : List Row) : String :=
  String.intercalate "\n" (String.intercalate "," schema_columns :: df.map rowCsv)

/-- The bytes stored at a path. -/
def fileBytes : FileData → String
  | .table df => csvOfTable df
  | .blob p => toString (repr p)

/-! ## Declarative structure of get_data_transformer_object, from
data_transformation.py: the two pipelines and the ColumnTransformer that
combines them, as declared data. -/

/-- A named transformation step of a pipeline. -/
inductive TStep where
  | imputerMedian
  | standardScaler
  | imputerMostFrequent
  | oneHotEncoder
  | standardScalerNoMean
deriving DecidableEq, Repr

/-- One branch of the ColumnTransformer: its name, its ordered step
chain, and the columns it consumes. -/
structure TransformerBranch where
  name : String
  steps : List TStep
  cols : List String
deriving DecidableEq, Repr

/-- num_pipeline: SimpleImputer(strategy=median) then StandardScaler(). -/
def num_pipeline : List TStep := [.imputerMedian, .standardScaler]

/-- cat_pipeline: SimpleImputer(strategy=most_frequent), OneHotEncoder()
with its default unknown-category policy, then
StandardScaler(with_mean=False). -/
def cat_pipeline : List TStep :=
  [.imputerMostFrequent, .oneHotEncoder, .standardScalerNoMean]

/-- DataTransformation.get_data_transformer_object: the ColumnTransformer
with the numeric branch first and the categorical branch second. -/
def get_data_transformer_object : List TransformerBranch :=
  [⟨"num_pipeline", num_pipeline, numerical_columns⟩,
   ⟨"cat_pipelines", cat_pipeline, categorical_columns⟩]

/-! ## Concrete data for witnesses and counterexamples. -/

/-- A state holding only the raw input table at the fixed source path. -/
def initState (df : List Row) : PState :=
  ⟨[(input_data_path, FileData.table df)], []⟩

/-- A fully populated sample row with fixed categorical values. -/
def sampleRow (m rd wr : ℚ) : Row :=
  ⟨some "female", some "group A", some "some high school", some "standard",
   some "none", m, some rd, some wr⟩

/-- First input table for the fit-on-test demonstration: five rows with
identical categorical values and varying scores. -/
def C1dfA : List Row :=
  [sampleRow 60 61 62, sampleRow 70 71 72, sampleRow 80 81 82,
   sampleRow 50 51 52, sampleRow 90 91 92]

/-- Second input table: identical to the first except in the predictor
scores of the one row the seeded split assigns to the test partition. -/
def C1dfB : List Row :=
  [sampleRow 60 61 62, sampleRow 70 71 72, sampleRow 80 45 46,
   sampleRow 50 51 52, sampleRow 90 91 92]

/-- The serialized preprocessor left on disk by a full end-to-end run,
if the run succeeded. -/
def fittedAfter (st : PState) : Option FileData :=
  match pipeline_main st with
  | .ok (_, _, _, st1) => lookupFile st1 preprocessor_obj_file_path
  | .error _ => none

/-- C1: the claim says the end-to-end run fits the preprocessor only on
the train partition, so altering test rows while train rows are held
fixed must not change the fitted statistics. The code violates this:
initialize_data_injection returns (test_data_path, train_data_path) but
the entry point unpacks the pair as (train_data, test_data), so
initiate_data_transformation fits on the test partition. Two five-row
input tables that agree on the four train-partition rows and differ only
in the test-partition row give different persisted fitted statistics. -/
theorem C1_fit_uses_test_partition :
    (train_test_split C1dfA).1 = (train_test_split C1dfB).1 ∧
    C1dfA ≠ C1dfB ∧
    (fittedAfter (initState C1dfA)).isSome = true ∧
    (fittedAfter (initState C1dfB)).isSome = true ∧
    fittedAfter (initState C1dfA) ≠ fittedAfter (initState C1dfB) :=
  ⟨by decide, by decide, by decide, by decide, by decide⟩

/-- C2: the claim says every error is wrapped into a single exception
carrying the original message plus source file and line. The code
violates this: every except block evaluates CustomException(e, sys), and
error_message_detail unpacks the sys module itself, so what reaches the
caller is always a TypeError about unpacking a module, carrying neither
the original message nor any source location. -/
theorem C2_wrapper_raises_type_error :
    (∀ msg : String,
      raiseCustomException msg PyObj.sysModule = PyExc.typeError unpackErrorMsg) ∧
    initialize_data_injection emptyState =
      .error (PyExc.typeError unpackErrorMsg, emptyState) :=
  ⟨fun _ => rfl, rfl⟩

/-- The state a successful ingestion run leaves behind: the artifacts
directory exists and the raw copy, train partition and test partition
files were written in order. -/
def ingestFinal (st : PState) (df : List Row) : PState :=
  setFile (setFile (setFile { st with dirs := "artifacts" :: st.dirs }
    raw_data_path (.table df))
    train_data_path (.table (train_test_split df).1))
    test_data_path (.table (train_test_split df).2)

/-- Success shape of the ingestion try block on a state holding the raw
table. -/
theorem ingestGo_ok (st : PState) (df : List Row)
    (hin : lookupFile st input_data_path = some (.table df)) :
    ingestGo st = .ok ((test_data_path, train_data_path), ingestFinal st df) := by
  unfold ingestGo ingestFinal
  rw [show read_csv st input_data_path = .ok df by simp [read_csv, hin]]
  rfl

/-- C3: the split performed by initialize_data_injection partitions the
raw table: counts add up to the total, the two partitions together are
exactly the raw rows, the train partition is 80 percent of the rows
(floor rounding, the test partition takes the ceiling of one fifth), and
for a duplicate-free table no row lands in both partitions. -/
theorem C3_split_partitions (st : PState) (df : List Row)
    (hin : lookupFile st input_data_path = some (.table df))
    (hnd : df.Nodup) :
    ∃ st' : PState,
      initialize_data_injection st =
        .ok ((test_data_path, train_data_path), st') ∧
      ∃ train_set test_set : List Row,
        lookupFile st' train_data_path = some (.table train_set) ∧
        lookupFile st' test_data_path = some (.table test_set) ∧
        train_set.length + test_set.length = df.length ∧
        List.Perm (train_set ++ test_set) df ∧
        train_set.length = 4 * df.length / 5 ∧
        ∀ r, r ∈ train_set → r ∉ test_set := by
  have hperm : List.Perm
      ((train_test_split df).1 ++ (train_test_split df).2) df := by
    have hkey : List.Perm
        ((shuffle 42 df).drop (testCount df.length) ++
         (shuffle 42 df).take (testCount df.length)) (shuffle 42 df) := by
      have h := @List.perm_append_comm Row
        ((shuffle 42 df).drop (testCount df.length))
        ((shuffle 42 df).take (testCount df.length))
      rwa [List.take_append_drop] at h
    exact hkey.trans (shuffle_perm 42 df)
  have hsh : (shuffle 42 df).length = df.length := (shuffle_perm 42 df).length_eq
  refine ⟨_, by unfold initialize_data_injection; rw [ingestGo_ok st df hin], ?_⟩
  refine ⟨(train_test_split df).1, (train_test_split df).2, by rfl, by rfl,
    ?_, hperm, ?_, ?_⟩
  · simpa using hperm.length_eq
  · show ((shuffle 42 df).drop (testCount df.length)).length = 4 * df.length / 5
    simp [hsh, testCount]
    omega
  · have hnodup : ((train_test_split df).1 ++ (train_test_split df).2).Nodup :=
      (hperm.symm).nodup hnd
    have hdj := (List.nodup_append.mp hnodup).2.2
    intro r hr hrt
    exact hdj hr hrt

/-- C4: ingestion is deterministic: two runs whose input file holds the
same table produce the same returned path pair and byte-identical train
and test partition files, whatever else the two states contain (the test
fraction 0.2 and seed 42 are baked into train_test_split). -/
theorem C4_reproducible_split (st1 st2 : PState) (df : List Row)
    (h1 : lookupFile st1 input_data_path = some (.table df))
    (h2 : lookupFile st2 input_data_path = some (.table df)) :
    ∃ r1 r2 : PState,
      initialize_data_injection st1 =
        .ok ((test_data_path, train_data_path), r1) ∧
      initialize_data_injection st2 =
        .ok ((test_data_path, train_data_path), r2) ∧
      (lookupFile r1 train_data_path).map fileBytes =
        (lookupFile r2 train_data_path).map fileBytes ∧
      (lookupFile r1 test_data_path).map fileBytes =
        (lookupFile r2 test_data_path).map fileBytes := by
  refine ⟨ingestFinal st1 df, ingestFinal st2 df,
    by unfold initialize_data_injection; rw [ingestGo_ok st1 df h1],
    by unfold initialize_data_injection; rw [ingestGo_ok st2 df h2], rfl, rfl⟩

/-- C5: given readable train and test tables whose predictor transforms
succeed, initiate_data_transformation returns exactly the transformed
predictor matrices with the raw target column values appended as the
last entry of each row, plus the persisted-object path. -/
theorem C5_transformation_contract (st : PState) (train_path test_path : String)
    (train_df test_df : List Row) (ta sa : List (List SVal))
    (ht : read_csv st train_path = .ok train_df)
    (hs : read_csv st test_path = .ok test_df)
    (hta : transformAll (preFit train_df) train_df = .ok ta)
    (hsa : transformAll (preFit train_df) test_df = .ok sa) :
    ∃ st' : PState,
      initiate_data_transformation st train_path test_path =
        .ok (List.zipWith (fun fr r => fr ++ [SVal.ofRat r.math_score]) ta train_df,
             List.zipWith (fun fr r => fr ++ [SVal.ofRat r.math_score]) sa test_df,
             preprocessor_obj_file_path, st') := by
  refine ⟨setFile { st with dirs := "artifacts" :: st.dirs }
    preprocessor_obj_file_path (.blob (preFit train_df)), ?_⟩
  unfold initiate_data_transformation transGo
  simp only [ht, hs, hta, hsa]
  rfl

/-- C6: the combined preprocessor has exactly two branches, numeric
first over writing_score and reading_score with median imputation then
standardization, categorical second over the five categorical columns
with most-frequent imputation, one-hot expansion and scaling without
mean centering; the column sets are disjoint, cover every predictor
column, exclude the target, and the combined transform output is the
numeric branch output followed by the categorical branch output. -/
theorem C6_transformer_branches :
    get_data_transformer_object =
      [⟨"num_pipeline", [TStep.imputerMedian, TStep.standardScaler],
         numerical_columns⟩,
       ⟨"cat_pipelines", [TStep.imputerMostFrequent, TStep.oneHotEncoder,
         TStep.standardScalerNoMean], categorical_columns⟩] ∧
    (∀ c ∈ numerical_columns, c ∉ categorical_columns) ∧
    List.Perm (numerical_columns ++ categorical_columns) predictor_columns ∧
    target_column_name ∉ numerical_columns ∧
    target_column_name ∉ categorical_columns ∧
    ∀ p r, preTransform p r =
      (catBranch p r).map (fun cs => numBranch p r ++ cs) := by
  refine ⟨rfl, by decide, by decide, by decide, by decide, ?_⟩
  intro p r
  unfold preTransform catBranch
  cases catT "gender" p.gender r.gender <;>
    cases catT "race_ethnicity" p.race_ethnicity r.race_ethnicity <;>
    cases catT "parental_level_of_education" p.parental_level_of_education
      r.parental_level_of_education <;>
    cases catT "lunch" p.lunch r.lunch <;>
    cases catT "test_preparation_course" p.test_preparation_course
      r.test_preparation_course <;>
    rfl

/-- Contents of a path just written. -/
theorem lookupFile_setFile_same (st : PState) (p : String) (d : FileData) :
    lookupFile (setFile st p d) p = some d := by
  simp [lookupFile, setFile, List.lookup]

/-- C7: save_object creates the destination parent directory, overwrites
whatever was at the destination with the serialized object, and the
persisted object deserializes to an object whose transform agrees with
the in-process fitted object on every row. -/
theorem C7_persistence_roundtrip (st : PState) (obj : FittedPre) (fp : String)
    (hd : dirname fp ≠ "") :
    ∃ st' : PState,
      save_object st fp obj = .ok st' ∧
      st'.dirs.contains (dirname fp) = true ∧
      lookupFile st' fp = some (.blob obj) ∧
      load_object st' fp = .ok obj ∧
      ∀ q r, load_object st' fp = .ok q → preTransform q r = preTransform obj r := by
  refine ⟨setFile { st with dirs := dirname fp :: st.dirs } fp (.blob obj),
    ?_, ?_, ?_, ?_, ?_⟩
  · unfold save_object saveGo makedirs writeFile
    simp [hd]
  · simp [setFile, List.contains_cons]
  · exact lookupFile_setFile_same _ _ _
  · unfold load_object
    rw [lookupFile_setFile_same]
  · intro q r hq
    unfold load_object at hq
    rw [lookupFile_setFile_same] at hq
    cases hq
    rfl

/-- The persistence step of the transformation run always succeeds: the
preprocessor path has a proper parent directory which makedirs creates. -/
theorem saveGo_ok (st : PState) (obj : FittedPre) :
    saveGo st preprocessor_obj_file_path obj =
      .ok (setFile { st with dirs := "artifacts" :: st.dirs }
        preprocessor_obj_file_path (.blob obj)) := rfl

/-- Any failing branch of the transformation try block leaves the file
map untouched (only directory bookkeeping can differ). -/
theorem transGo_error_state (st : PState) (a b : String) (c : Cause)
    (st1 : PState) (h : transGo st a b = .error (c, st1)) :
    st1.files = st.files := by
  unfold transGo at h
  simp only [saveGo_ok] at h
  cases hA : read_csv st a with
  | error cA =>
    rw [hA] at h; simp at h; obtain ⟨-, h2⟩ := h; rw [← h2]
  | ok train_df =>
    rw [hA] at h; simp only [] at h
    cases hB : read_csv st b with
    | error cB => rw [hB] at h; simp at h; obtain ⟨-, h2⟩ := h; rw [← h2]
    | ok test_df =>
      rw [hB] at h; simp only [] at h
      cases hC : transformAll (preFit train_df) train_df with
      | error cC => rw [hC] at h; simp at h; obtain ⟨-, h2⟩ := h; rw [← h2]
      | ok ta =>
        rw [hC] at h; simp only [] at h
        cases hD : transformAll (preFit train_df) test_df with
        | error cD => rw [hD] at h; simp at h; obtain ⟨-, h2⟩ := h; rw [← h2]
        | ok sa => rw [hD] at h; simp at h

/-- C8: if initiate_data_transformation fails, no preprocessor file has
been written: the contents previously at the preprocessor path are
unchanged in the state the exception leaves behind. -/
theorem C8_no_partial_write (st : PState) (train_path test_path : String)
    (e : PyExc) (st' : PState)
    (h : initiate_data_transformation st train_path test_path =
      .error (e, st')) :
    lookupFile st' preprocessor_obj_file_path =
      lookupFile st preprocessor_obj_file_path := by
  unfold initiate_data_transformation at h
  cases hg : transGo st train_path test_path with
  | ok r => rw [hg] at h; exact absurd h (by simp)
  | error p =>
    rw [hg] at h
    simp at h
    obtain ⟨-, hst⟩ := h
    subst hst
    unfold lookupFile
    rw [transGo_error_state st train_path test_path p.1 p.2 (by rw [hg])]

/-- A successful categorical transform means the (imputed) value was in
the learned vocabulary. -/
theorem catT_ok_mem (col : String) (stc : CatStats) (v : String)
    (l : List SVal) (hx : catT col stc (some v) = .ok l) :
    v ∈ stc.categories := by
  unfold catT at hx
  split at hx
  next hmem => simpa using hmem
  next hmem => exact absurd hx (by simp)

/-- A failing categorical transform fails with the unknown-category
error for the (imputed) cell value. -/
theorem catT_error_shape (col : String) (stc : CatStats) (x : Option String)
    (c : Cause) (h : catT col stc x = .error c) :
    c = .unknownCategory col (x.getD stc.mode) := by
  unfold catT at h
  split at h
  next hmem => exact absurd h (by simp)
  next hmem =>
    simp at h
    exact h.symm

/-- Bind of a failed Except computation. -/
theorem except_bind_error {α β : Type} {e : Cause} {f : α → Except Cause β} :
    (Except.error e : Except Cause α) >>= f = Except.error e := rfl

/-- Bind of a successful Except computation. -/
theorem except_bind_ok {α β : Type} {a : α} {f : α → Except Cause β} :
    (Except.ok a : Except Cause α) >>= f = f a := rfl

/-- C9: a fitted preprocessor applied to a row holding, in any of the
five categorical columns, a present value that was not in the vocabulary
learned at fit time raises the unknown-category error instead of
producing an all-zero one-hot block. -/
theorem C9_unknown_category_errors (rows : List Row) (r : Row) (v : String)
    (h : (r.gender = some v ∧ v ∉ (preFit rows).gender.categories) ∨
         (r.race_ethnicity = some v ∧
           v ∉ (preFit rows).race_ethnicity.categories) ∨
         (r.parental_level_of_education = some v ∧
           v ∉ (preFit rows).parental_level_of_education.categories) ∨
         (r.lunch = some v ∧ v ∉ (preFit rows).lunch.categories) ∨
         (r.test_preparation_course = some v ∧
           v ∉ (preFit rows).test_preparation_course.categories)) :
    ∃ cc ww, preTransform (preFit rows) r =
      .error (Cause.unknownCategory cc ww) := by
  cases hg : catT "gender" (preFit rows).gender r.gender with
  | error cg =>
    refine ⟨"gender", r.gender.getD (preFit rows).gender.mode, ?_⟩
    have hsh := catT_error_shape _ _ _ _ hg
    subst hsh
    simp [preTransform, hg, except_bind_error]
  | ok g =>
    cases hre : catT "race_ethnicity" (preFit rows).race_ethnicity
        r.race_ethnicity with
    | error cre =>
      refine ⟨"race_ethnicity",
        r.race_ethnicity.getD (preFit rows).race_ethnicity.mode, ?_⟩
      have hsh := catT_error_shape _ _ _ _ hre
      subst hsh
      simp [preTransform, hg, hre, except_bind_ok, except_bind_error]
    | ok re =>
      cases hpe : catT "parental_level_of_education"
          (preFit rows).parental_level_of_education
          r.parental_level_of_education with
      | error cpe =>
        refine ⟨"parental_level_of_education",
          r.parental_level_of_education.getD
            (preFit rows).parental_level_of_education.mode, ?_⟩
        have hsh := catT_error_shape _ _ _ _ hpe
        subst hsh
        simp [preTransform, hg, hre, hpe, except_bind_ok, except_bind_error]
      | ok pe =>
        cases hlu : catT "lunch" (preFit rows).lunch r.lunch with
        | error clu =>
          refine ⟨"lunch", r.lunch.getD (preFit rows).lunch.mode, ?_⟩
          have hsh := catT_error_shape _ _ _ _ hlu
          subst hsh
          simp [preTransform, hg, hre, hpe, hlu, except_bind_ok,
            except_bind_error]
        | ok lu =>
          cases htc : catT "test_preparation_course"
              (preFit rows).test_preparation_course
              r.test_preparation_course with
          | error ctc =>
            refine ⟨"test_preparation_course",
              r.test_preparation_course.getD
                (preFit rows).test_preparation_course.mode, ?_⟩
            have hsh := catT_error_shape _ _ _ _ htc
            subst hsh
            simp [preTransform, hg, hre, hpe, hlu, htc, except_bind_ok,
              except_bind_error]
          | ok tc =>
            exfalso
            rcases h with ⟨hv, hnm⟩ | ⟨hv, hnm⟩ | ⟨hv, hnm⟩ | ⟨hv, hnm⟩ |
              ⟨hv, hnm⟩
            · rw [hv] at hg; exact hnm (catT_ok_mem _ _ _ _ hg)
            · rw [hv] at hre; exact hnm (catT_ok_mem _ _ _ _ hre)
            · rw [hv] at hpe; exact hnm (catT_ok_mem _ _ _ _ hpe)
            · rw [hv] at hlu; exact hnm (catT_ok_mem _ _ _ _ hlu)
            · rw [hv] at htc; exact hnm (catT_ok_mem _ _ _ _ htc)

/-- C10: save_object called with a bare file name (no directory
component) always fails and writes nothing: it unconditionally calls
os.makedirs on the empty-string parent directory, which raises before
the file is opened; the state in the escaping error is the input state,
untouched. -/
theorem C10_bare_filename_errors (st : PState) (obj : FittedPre) (fp : String)
    (hd : dirname fp = "") :
    save_object st fp obj = .error (PyExc.typeError unpackErrorMsg, st) := by
  unfold save_object saveGo makedirs
  rw [hd]
  rfl

/-! ## Closed witnesses exercising the theorems on concrete data. -/

/-- A two-row duplicate-free table. -/
def C3df : List Row := [sampleRow 1 2 3, sampleRow 4 5 6]

/-- Witness for C3: the split of a concrete two-row table. -/
theorem C3_split_partitions_witness :
    lookupFile (initState C3df) input_data_path = some (.table C3df) ∧
    C3df.Nodup ∧
    ∃ st' : PState,
      initialize_data_injection (initState C3df) =
        .ok ((test_data_path, train_data_path), st') ∧
      ∃ train_set test_set : List Row,
        lookupFile st' train_data_path = some (.table train_set) ∧
        lookupFile st' test_data_path = some (.table test_set) ∧
        train_set.length + test_set.length = C3df.length ∧
        List.Perm (train_set ++ test_set) C3df ∧
        train_set.length = 4 * C3df.length / 5 ∧
        ∀ r, r ∈ train_set → r ∉ test_set :=
  ⟨rfl, by decide, C3_split_partitions (initState C3df) C3df rfl (by decide)⟩

/-- A one-row table. -/
def C4df : List Row := [sampleRow 7 8 9]

/-- A state holding the input table plus unrelated content. -/
def C4stB : PState :=
  ⟨[("junk.csv", FileData.table []), (input_data_path, FileData.table C4df)],
   ["artifacts"]⟩

/-- Witness for C4: two states agreeing only on the input table. -/
theorem C4_reproducible_split_witness :
    lookupFile (initState C4df) input_data_path = some (.table C4df) ∧
    lookupFile C4stB input_data_path = some (.table C4df) ∧
    ∃ r1 r2 : PState,
      initialize_data_injection (initState C4df) =
        .ok ((test_data_path, train_data_path), r1) ∧
      initialize_data_injection C4stB =
        .ok ((test_data_path, train_data_path), r2) ∧
      (lookupFile r1 train_data_path).map fileBytes =
        (lookupFile r2 train_data_path).map fileBytes ∧
      (lookupFile r1 test_data_path).map fileBytes =
        (lookupFile r2 test_data_path).map fileBytes :=
  ⟨rfl, rfl, C4_reproducible_split (initState C4df) C4stB C4df rfl rfl⟩

/-- A one-row table for the transformation contract. -/
def C5df : List Row := [sampleRow 10 11 12]

/-- A state holding the train and test tables at two paths. -/
def C5st : PState :=
  ⟨[("train_in.csv", FileData.table C5df), ("test_in.csv", FileData.table C5df)],
   []⟩

/-- Extract the matrix of a successful transform (default empty). -/
def okArr : Except Cause (List (List SVal)) → List (List SVal)
  | .ok v => v
  | .error _ => []

/-- Witness for C5: the transformation contract on a concrete state. -/
theorem C5_transformation_contract_witness :
    read_csv C5st "train_in.csv" = .ok C5df ∧
    read_csv C5st "test_in.csv" = .ok C5df ∧
    transformAll (preFit C5df) C5df =
      .ok (okArr (transformAll (preFit C5df) C5df)) ∧
    ∃ st' : PState,
      initiate_data_transformation C5st "train_in.csv" "test_in.csv" =
        .ok (List.zipWith (fun fr r => fr ++ [SVal.ofRat r.math_score])
               (okArr (transformAll (preFit C5df) C5df)) C5df,
             List.zipWith (fun fr r => fr ++ [SVal.ofRat r.math_score])
               (okArr (transformAll (preFit C5df) C5df)) C5df,
             preprocessor_obj_file_path, st') :=
  ⟨rfl, rfl, rfl,
   C5_transformation_contract C5st "train_in.csv" "test_in.csv" C5df C5df
     (okArr (transformAll (preFit C5df) C5df))
     (okArr (transformAll (preFit C5df) C5df)) rfl rfl rfl rfl⟩

/-- Witness for C6: the branch-order equation at a concrete preprocessor
and row. -/
theorem C6_transformer_branches_witness :
    preTransform (preFit C3df) (sampleRow 1 2 3) =
      (catBranch (preFit C3df) (sampleRow 1 2 3)).map
        (fun cs => numBranch (preFit C3df) (sampleRow 1 2 3) ++ cs) :=
  C6_transformer_branches.2.2.2.2.2 (preFit C3df) (sampleRow 1 2 3)

/-- A previously persisted preprocessor (to be overwritten). -/
def C7old : FittedPre := preFit []

/-- The newly fitted preprocessor to persist. -/
def C7obj : FittedPre := preFit C3df

/-- A state already holding a file at the preprocessor path. -/
def C7st : PState := ⟨[(preprocessor_obj_file_path, FileData.blob C7old)], []⟩

/-- Witness for C7: overwriting an existing preprocessor file. -/
theorem C7_persistence_roundtrip_witness :
    dirname preprocessor_obj_file_path ≠ "" ∧
    ∃ st' : PState,
      save_object C7st preprocessor_obj_file_path C7obj = .ok st' ∧
      st'.dirs.contains (dirname preprocessor_obj_file_path) = true ∧
      lookupFile st' preprocessor_obj_file_path = some (.blob C7obj) ∧
      load_object st' preprocessor_obj_file_path = .ok C7obj ∧
      ∀ q r, load_object st' preprocessor_obj_file_path = .ok q →
        preTransform q r = preTransform C7obj r :=
  ⟨by decide,
   C7_persistence_roundtrip C7st C7obj preprocessor_obj_file_path (by decide)⟩

/-- Witness for C8: a failing transformation run (missing input files)
leaves the preprocessor path unchanged. -/
theorem C8_no_partial_write_witness :
    initiate_data_transformation emptyState "no_train.csv" "no_test.csv" =
      .error (PyExc.typeError unpackErrorMsg, emptyState) ∧
    lookupFile emptyState preprocessor_obj_file_path =
      lookupFile emptyState preprocessor_obj_file_path :=
  ⟨rfl,
   C8_no_partial_write emptyState "no_train.csv" "no_test.csv"
     (PyExc.typeError unpackErrorMsg) emptyState rfl⟩

/-- The table the preprocessor was fitted on for the C9 witness. -/
def C9rows : List Row := [sampleRow 1 2 3]

/-- A row holding a categorical value unseen at fit time. -/
def C9row : Row :=
  ⟨some "nonbinary", some "group A", some "some high school", some "standard",
   some "none", 5, some 6, some 7⟩

/-- Witness for C9: transforming a row with an unseen gender value
fails with the unknown-category error. -/
theorem C9_unknown_category_errors_witness :
    (C9row.gender = some "nonbinary" ∧
      "nonbinary" ∉ (preFit C9rows).gender.categories) ∧
    ∃ cc ww, preTransform (preFit C9rows) C9row =
      .error (Cause.unknownCategory cc ww) :=
  ⟨⟨rfl, by decide⟩,
   C9_unknown_category_errors C9rows C9row "nonbinary"
     (Or.inl ⟨rfl, by decide⟩)⟩

/-- Witness for C10: a bare destination file name makes save_object fail
without writing. -/
theorem C10_bare_filename_errors_witness :
    dirname "proprocessor.pkl" = "" ∧
    save_object emptyState "proprocessor.pkl" C7old =
      .error (PyExc.typeError unpackErrorMsg, emptyState) :=
  ⟨rfl, C10_bare_filename_errors emptyState C7old "proprocessor.pkl" rfl⟩
